import Mathlib

/-!
Shallow embedding of the NovaSynth-AI molecule rendering pipeline
(the `InteractiveMoleculeViewer` component: geometry normalizer, 3D
scene builder, 2D coordinate resolver, 2D bond renderer, viewport
controller and the PubChem fetch effect), of the comparison engine's
`handleCompare` handler (`Sidebar.tsx`) and of the model-response JSON
helper `parseJSON` (`geminiService.ts`).

TypeScript `number` values held in data and UI state (JSON numbers,
which are finite decimals) are modelled as rationals, so that the
definitions stay executable; the vector geometry of the 3D normalizer,
which takes square roots, is carried out over the reals.  JS `undefined`
and thrown exceptions on fallible paths are modelled with `Option`.
-/

namespace NovaSynth

/-- Element symbol plus 3D coordinates (`types.ts`, `Atom3D`).  The
optional `id` field exists in the source type but is never read by the
viewer code. -/
structure Atom3D where
  element : String
  x : ℚ
  y : ℚ
  z : ℚ
  id : Option Int := none
deriving DecidableEq

/-- Bond between two atom references with an integer order.  `types.ts`
declares `Bond3D` and `Bond2D` with identical fields `{from, to, order}`;
both are modelled by this one structure (`from` is a Lean keyword, hence
`from'`). -/
structure Bond where
  from' : Int
  to' : Int
  order : Int
deriving DecidableEq

/-- 2D atom (`types.ts`, `Atom2D`): source-defined integer id, element
symbol and layout coordinates. -/
structure Atom2D where
  id : Int
  element : String
  x : ℚ
  y : ℚ
deriving DecidableEq

/-- `types.ts`, `Structure2D`: a 2D layout (atoms plus bonds). -/
structure Structure2D where
  atoms : List Atom2D
  bonds : List Bond
deriving DecidableEq

/-- `types.ts`, `MoleculeStructure` (fields not read by the viewer are
kept as optional strings). -/
structure MoleculeStructure where
  smiles : String
  inchi : Option String := none
  verificationNote : Option String := none
  atoms : List Atom3D
  bonds : List Bond
  structure2D : Option Structure2D := none
deriving DecidableEq

/-- CPK colour table `ATOM_COLORS` from `InteractiveMoleculeViewer`,
modelled as an association list (the source is a JS object literal with
distinct keys). -/
def ATOM_COLORS : List (String × String) :=
  [("H", "#FFFFFF"), ("C", "#909090"), ("N", "#3050F8"), ("O", "#FF0D0D"),
   ("F", "#90E050"), ("Cl", "#1FF01F"), ("Br", "#A62929"), ("I", "#940094"),
   ("P", "#FF8000"), ("S", "#FFFF30"), ("B", "#FFB5B5"),
   ("default", "#DA70D6")]

/-- JS object lookup `ATOM_COLORS[k]`; `none` models `undefined`. -/
def colorLookup (k : String) : Option String :=
  (ATOM_COLORS.find? (fun p => p.1 == k)).map (fun p => p.2)

/-- `el.charAt(0).toUpperCase() + el.slice(1)`: first character
uppercased, the rest of the string unchanged. -/
def capitalizeFirst (s : String) : String :=
  match s.data with
  | [] => ""
  | c :: cs => String.mk (Char.toUpper c :: cs)

/-- `getAtomColor`: exact key first, then the key with its first letter
uppercased, then `ATOM_COLORS['default']` (= `"#DA70D6"`). -/
def getAtomColor (el : String) : String :=
  match colorLookup el with
  | some c => c
  | none =>
    match colorLookup (capitalizeFirst el) with
    | some c => c
    | none => "#DA70D6"

/-- `THREE.Vector3`, restricted to the operations the component uses. -/
structure Vector3 where
  x : ℝ
  y : ℝ
  z : ℝ

/-- `v.add(w)` (componentwise sum, as mutated in place by `centroid.add`). -/
noncomputable def Vector3.add (v w : Vector3) : Vector3 :=
  ⟨v.x + w.x, v.y + w.y, v.z + w.z⟩

/-- `v.sub(w)` (componentwise difference). -/
noncomputable def Vector3.sub (v w : Vector3) : Vector3 :=
  ⟨v.x - w.x, v.y - w.y, v.z - w.z⟩

/-- `v.multiplyScalar(s)`. -/
noncomputable def Vector3.multiplyScalar (v : Vector3) (s : ℝ) : Vector3 :=
  ⟨v.x * s, v.y * s, v.z * s⟩

/-- `v.distanceTo(w)`: Euclidean distance. -/
noncomputable def Vector3.distanceTo (v w : Vector3) : ℝ :=
  Real.sqrt ((v.x - w.x) ^ 2 + (v.y - w.y) ^ 2 + (v.z - w.z) ^ 2)

/-- The position of a 3D atom as a vector (`new THREE.Vector3(a.x, a.y, a.z)`),
lifting the stored rational coordinates into the reals. -/
def Atom3D.vec (a : Atom3D) : Vector3 := ⟨(a.x : ℝ), (a.y : ℝ), (a.z : ℝ)⟩

/-- Centroid accumulation loop of `MoleculeStructure3D`:
`atoms.forEach(a => centroid.add(vec a)); centroid.divideScalar(n)`. -/
noncomputable def centroid (atoms : List Atom3D) : Vector3 :=
  let s := atoms.foldl (fun acc a => acc.add a.vec) (⟨0, 0, 0⟩ : Vector3)
  ⟨s.x / atoms.length, s.y / atoms.length, s.z / atoms.length⟩

/-- Maximum-distance loop of `MoleculeStructure3D`:
`let maxDist = 0; atoms.forEach(a => { if (dist > maxDist) maxDist = dist })`
(`if d > m then d else m` coincides with `max m d`). -/
noncomputable def maxDistToCentroid (atoms : List Atom3D) (c : Vector3) : ℝ :=
  atoms.foldl (fun m a => max m (Vector3.distanceTo a.vec c)) 0

/-- `const scale = maxDist > 0 ? 5.5 / maxDist : 1` (target radius 5.5). -/
noncomputable def normalizeScale (atoms : List Atom3D) : ℝ :=
  let md := maxDistToCentroid atoms (centroid atoms)
  if md > 0 then 5.5 / md else 1

/-- One entry of the `atomsList` built by `MoleculeStructure3D`. -/
structure Node3D where
  pos : Vector3
  element : String
  color : String

/-- `atomsList = atoms.map(a => ({pos: vec(a).sub(centroid).multiplyScalar(scale), ...}))`. -/
noncomputable def buildNodes (atoms : List Atom3D) : List Node3D :=
  let c := centroid atoms
  let s := normalizeScale atoms
  atoms.map (fun a =>
    ⟨(a.vec.sub c).multiplyScalar s, a.element, getAtomColor a.element⟩)

/-- The `useMemo` body of `MoleculeStructure3D`: nodes plus the raw
connection index pairs `bonds.map(b => [b.from, b.to])`; the guard is
`structureData && structureData.atoms && structureData.atoms.length > 0`. -/
noncomputable def buildScene (structureData : Option MoleculeStructure) :
    List Node3D × List (Int × Int) :=
  match structureData with
  | some sd =>
    if sd.atoms.length > 0 then
      (buildNodes sd.atoms, sd.bonds.map (fun b => (b.from', b.to')))
    else ([], [])
  | none => ([], [])

/-- JS array indexing `nodes[i]`: `none` models `undefined` (negative or
out-of-range index). -/
def lookup3DNode (nodes : List Node3D) (i : Int) : Option Node3D :=
  if 0 ≤ i then nodes.get? i.toNat else none

/-- The 3D bond-rendering loop
`connections.map(conn => Bond(start := nodes[conn[0]].pos, end := nodes[conn[1]].pos))`.
The source performs no existence check: reading `.pos` off an
`undefined` array element throws, modelled by the result `none`. -/
def render3DBonds (nodes : List Node3D) (connections : List (Int × Int)) :
    Option (List (Vector3 × Vector3)) :=
  connections.mapM (fun c => do
    let s ← lookup3DNode nodes c.1
    let e ← lookup3DNode nodes c.2
    pure (s.pos, e.pos))

/-- Last-resort projection of 3D atoms in the 2D resolver:
`atoms.map((a, i) => ({id: i, element: a.element, x: a.x * 20, y: a.y * 20}))`. -/
def project3D (atoms : List Atom3D) : List Atom2D :=
  atoms.enum.map (fun p =>
    ⟨(p.1 : Int), p.2.element, p.2.x * 20, p.2.y * 20⟩)

/-- Branch 3 of the resolver chain (guard
`structureData?.atoms?.length && structureData.atoms.length > 0`),
returning `(atomsList, bondsList, isFallbackData, isOfficial)`. -/
def fallbackFrom3D (sd : MoleculeStructure) :
    List Atom2D × List Bond × Bool × Bool :=
  if sd.atoms.length > 0 then (project3D sd.atoms, sd.bonds, true, false)
  else ([], [], false, false)

/-- Source-selection chain of the 2D resolver `useMemo`:
`if (pubChemData) … else if (structureData?.structure2D?.atoms?.length && … > 0) …
else if (structureData?.atoms?.length && … > 0) …`.  A non-null
`pubChemData` object is truthy regardless of the emptiness of its atom
list. -/
def select2DSource (pubChemData : Option Structure2D)
    (structureData : Option MoleculeStructure) :
    List Atom2D × List Bond × Bool × Bool :=
  match pubChemData with
  | some pc => (pc.atoms, pc.bonds, false, true)
  | none =>
    match structureData with
    | none => ([], [], false, false)
    | some sd =>
      match sd.structure2D with
      | some s2 =>
        if s2.atoms.length > 0 then (s2.atoms, s2.bonds, false, false)
        else fallbackFrom3D sd
      | none => fallbackFrom3D sd

/-- Bounding-box computation of the resolver (the `±Infinity` seeded
min/max scan, folded from the first atom, which is equivalent on the
non-empty lists the caller guarantees), with padding
`isOfficial ? 1.5 : 20`, returned as `(vBoxX, vBoxY, width, height)`. -/
def computeViewBox (atoms : List Atom2D) (isOfficial : Bool) : ℚ × ℚ × ℚ × ℚ :=
  match atoms with
  | [] => (0, 0, 100, 100)
  | a :: _ =>
    let minX := atoms.foldl (fun m t => min m t.x) a.x
    let maxX := atoms.foldl (fun m t => max m t.x) a.x
    let minY := atoms.foldl (fun m t => min m t.y) a.y
    let maxY := atoms.foldl (fun m t => max m t.y) a.y
    let padding : ℚ := if isOfficial then 1.5 else 20
    (minX - padding, minY - padding,
     (maxX - minX) + padding * 2, (maxY - minY) + padding * 2)

/-- Result of the 2D resolver `useMemo` (`viewBox` kept as the numeric
rectangle that the source serializes into the SVG `viewBox` string; the
`idMap` the source also returns is never read by the renderer and is
omitted). -/
structure Resolved2D where
  nodes : List Atom2D
  connections : List Bond
  viewBox : ℚ × ℚ × ℚ × ℚ
  isFallback : Bool
  isOfficial : Bool

/-- The empty/placeholder resolver result
`{nodes: [], connections: [], viewBox: "0 0 100 100", isFallback: false, isOfficial: false}`. -/
def emptyResolved2D : Resolved2D := ⟨[], [], (0, 0, 100, 100), false, false⟩

/-- The full 2D resolver `useMemo` body of `MoleculeStructure2D`. -/
def resolve2D (pubChemData : Option Structure2D)
    (structureData : Option MoleculeStructure) : Resolved2D :=
  match select2DSource pubChemData structureData with
  | (atomsList, bondsList, isFallbackData, isOfficial) =>
    if atomsList.length = 0 then emptyResolved2D
    else ⟨atomsList, bondsList, computeViewBox atomsList isOfficial,
          isFallbackData, isOfficial⟩

/-- `const strokeScale = (Math.max(0.3, vbWidth / 100)) / transform.k`. -/
def strokeScale (vbWidth k : ℚ) : ℚ := max 0.3 (vbWidth / 100) / k

/-- `const baseWidth = 0.6 * strokeScale * (pubChemData ? 0.1 : 5)`. -/
def baseWidthOf (scale : ℚ) (isPubChem : Bool) : ℚ :=
  0.6 * scale * (if isPubChem then 0.1 else 5)

/-- One SVG `<line>` primitive produced by the 2D bond renderer.  The
enclosing `<g>` carries `stroke = "#94a3b8"`; a line that overrides the
stroke (the background-coloured gap lines) records its own colour.
`strokeDash` models the `strokeDasharray` pair; `opacity` defaults to 1. -/
structure Line2D where
  x1 : ℚ
  y1 : ℚ
  x2 : ℚ
  y2 : ℚ
  strokeWidth : ℚ
  stroke : String
  strokeDash : Option (ℚ × ℚ)
  opacity : ℚ
deriving DecidableEq

/-- The per-bond rendering body of `MoleculeStructure2D`:
`nodes.find` on both endpoint ids, `null` (here `[]`) when either is
missing, otherwise the order-dependent stroke stack.  `bw` is the
`baseWidth` computed per render. -/
def renderBond2D (nodes : List Atom2D) (bw : ℚ) (conn : Bond) : List Line2D :=
  match nodes.find? (fun n => n.id == conn.from'),
        nodes.find? (fun n => n.id == conn.to') with
  | some f, some t =>
    if conn.order = 2 then
      [⟨f.x, f.y, t.x, t.y, bw * 2.5, "#94a3b8", none, 1⟩,
       ⟨f.x, f.y, t.x, t.y, bw * 0.8, "#0B0F19", none, 1⟩]
    else if conn.order = 3 then
      [⟨f.x, f.y, t.x, t.y, bw * 3.5, "#94a3b8", none, 1⟩,
       ⟨f.x, f.y, t.x, t.y, bw * 1.5, "#0B0F19", none, 1⟩,
       ⟨f.x, f.y, t.x, t.y, bw * 0.5, "#94a3b8", none, 1⟩]
    else if conn.order = 4 then
      [⟨f.x, f.y, t.x, t.y, bw, "#94a3b8", some (bw * 2, bw), 1⟩,
       ⟨f.x, f.y, t.x, t.y, bw, "#94a3b8", none, 0.5⟩]
    else
      [⟨f.x, f.y, t.x, t.y, bw, "#94a3b8", none, 1⟩]
  | _, _ => []

/-- A background-coloured "gap" stroke (`stroke="#0B0F19"`). -/
def isGapStroke (l : Line2D) : Bool := l.stroke == "#0B0F19"

/-- A dashed stroke (`strokeDasharray` present). -/
def isDashedStroke (l : Line2D) : Bool := l.strokeDash.isSome

/-- Sphere radius of the 3D scene:
`node.element === 'H' ? 0.2 : 0.35`. -/
def sphereRadiusFor (element : String) : ℚ :=
  if element = "H" then 0.2 else 0.35

/-- Viewport transform state `{k, x, y}` of `MoleculeStructure2D`. -/
structure Transform where
  k : ℚ
  x : ℚ
  y : ℚ
deriving DecidableEq

/-- `handleZoomIn`: `k := Math.min(k * 1.2, 5)`. -/
def handleZoomIn (t : Transform) : Transform :=
  { t with k := min (t.k * 1.2) 5 }

/-- `handleZoomOut`: `k := Math.max(k / 1.2, 0.5)`. -/
def handleZoomOut (t : Transform) : Transform :=
  { t with k := max (t.k / 1.2) 0.5 }

/-- `handleReset`: `{k: 1, x: 0, y: 0}`. -/
def handleReset (_ : Transform) : Transform := ⟨1, 0, 0⟩

/-- `handleWheel`:
`newScale = Math.min(Math.max(0.5, k + (-deltaY * 0.001)), 5)`. -/
def handleWheel (deltaY : ℚ) (t : Transform) : Transform :=
  { t with k := min (max 0.5 (t.k + (-deltaY) * 0.001)) 5 }

/-- The zoom operations named by the viewport-scale invariant. -/
inductive ZoomOp where
  | zoomIn
  | zoomOut
  | wheel (deltaY : ℚ)
  | reset

/-- Dispatch one zoom operation. -/
def applyZoomOp (t : Transform) : ZoomOp → Transform
  | .zoomIn => handleZoomIn t
  | .zoomOut => handleZoomOut t
  | .wheel d => handleWheel d t
  | .reset => handleReset t

/-- Apply a sequence of zoom operations in order. -/
def applyZoomOps (t : Transform) (ops : List ZoomOp) : Transform :=
  ops.foldl applyZoomOp t

/-- The initial identity transform `useState({k: 1, x: 0, y: 0})`. -/
def initialTransform : Transform := ⟨1, 0, 0⟩

/-- Observable fetch-related state of `MoleculeStructure2D`: the
`moleculeName` prop, the `pubChemData` state, and the multiset of
fetches issued but not yet resolved. -/
structure ViewerFetchState where
  moleculeName : String
  pubChemData : Option Structure2D
  inFlight : List String

/-- Events driving the fetch effect: a molecule-name change (the
`useEffect` re-runs, clears `pubChemData` and issues a new fetch), or an
in-flight fetch for `name` resolving with successfully parsed data. -/
inductive FetchEvent where
  | select (name : String)
  | resolve (name : String) (data : Structure2D)

/-- One step of the fetch state machine.  On `select` the effect body
runs: `setPubChemData(null)` and a fetch for the new name is issued.  On
`resolve` the source continuation runs `setPubChemData(parsed)`
unconditionally — the handler performs no comparison against the current
molecule name (the `n ∈ inFlight` guard only models that a fetch must
have been issued for its result to arrive). -/
def fetchStep (s : ViewerFetchState) : FetchEvent → ViewerFetchState
  | .select n => ⟨n, none, s.inFlight ++ [n]⟩
  | .resolve n d =>
    if n ∈ s.inFlight then ⟨s.moleculeName, some d, s.inFlight.erase n⟩
    else s

/-- Run a sequence of fetch events. -/
def fetchRun (s : ViewerFetchState) (evs : List FetchEvent) : ViewerFetchState :=
  evs.foldl fetchStep s

/-- State on mount with molecule `name`: the effect has run once and the
first fetch is in flight. -/
def initViewer (name : String) : ViewerFetchState := ⟨name, none, [name]⟩

/-- JS `String.prototype.trim()`: strip leading and trailing
whitespace, modelled on the character list so it stays kernel-reducible. -/
def jsTrim (s : String) : String :=
  String.mk (((s.data.dropWhile Char.isWhitespace).reverse.dropWhile
    Char.isWhitespace).reverse)

/-- Recursion core of the global literal-pattern replacement
`text.replace(/pat/g, rep)`; the fuel argument (instantiated with the
input length) only makes the recursion structural. -/
def replaceAllGo (pat rep : List Char) : Nat → List Char → List Char
  | 0, cs => cs
  | _ + 1, [] => []
  | fuel + 1, c :: rest =>
    if (c :: rest).take pat.length = pat then
      rep ++ replaceAllGo pat rep fuel ((c :: rest).drop pat.length)
    else c :: replaceAllGo pat rep fuel rest

/-- JS `s.replace(/pat/g, rep)` for a literal pattern `pat`. -/
def jsReplaceAll (s pat rep : String) : String :=
  String.mk (replaceAllGo pat.data rep.data s.data.length s.data)

/-- Result of `validateComparisonInputs` (`geminiService.ts`). -/
structure ValidationResult where
  mol1Valid : Bool
  mol2Valid : Bool
deriving DecidableEq

/-- `ComparisonData`, restricted to the fields `handleCompare` itself
reads (`molecule1`, `molecule2` for the history title). -/
structure ComparisonData where
  molecule1 : String
  molecule2 : String
deriving DecidableEq

/-- The `ComparisonEngine` state slices touched by `handleCompare`:
`loading`, `error`, `data`. -/
structure CompareState where
  loading : Bool
  error : Option String
  data : Option ComparisonData
deriving DecidableEq

/-- Network calls `handleCompare` can issue. -/
inductive CompareCall where
  | validate (mol1 mol2 : String)
  | compare (mol1 mol2 : String)
deriving DecidableEq

/-- `handleCompare` from `Sidebar.tsx` (`ComparisonEngine`).  The two
awaited service calls are modelled by their outcomes (`Except` error =
thrown exception caught by the `catch` block); the function returns the
final state plus the list of calls issued.  `!mol1.trim()` is the
emptiness test on the trimmed string. -/
def handleCompare (mol1 mol2 : String) (st : CompareState)
    (validation : Except String ValidationResult)
    (comparison : Except String ComparisonData) :
    CompareState × List CompareCall :=
  if jsTrim mol1 = "" ∨ jsTrim mol2 = "" then (st, [])
  else
    match validation with
    | .error e =>
      (⟨false, some (if e = "" then "Analysis failed. Please check your connection." else e), none⟩,
       [.validate mol1 mol2])
    | .ok v =>
      if !v.mol1Valid || !v.mol2Valid then
        let msg := "Invalid Input: " ++
          (if !v.mol1Valid && !v.mol2Valid then
            "Both inputs are not recognized as valid chemical entities."
          else if !v.mol1Valid then
            "\"" ++ mol1 ++ "\" is not a recognized molecule or valid structure format."
          else
            "\"" ++ mol2 ++ "\" is not a recognized molecule or valid structure format.")
        (⟨false, some msg, none⟩, [.validate mol1 mol2])
      else
        match comparison with
        | .error e =>
          (⟨false, some (if e = "" then "Analysis failed. Please check your connection." else e), none⟩,
           [.validate mol1 mol2, .compare mol1 mol2])
        | .ok r =>
          (⟨false, none, some r⟩, [.validate mol1 mol2, .compare mol1 mol2])

/-- JSON values, for the model-response parser. -/
inductive Json where
  | null
  | bool (b : Bool)
  | num (q : ℚ)
  | str (s : String)
  | arr (xs : List Json)
  | obj (fields : List (String × Json))

/-- The fence-stripping clean-up of `parseJSON`:
`text.replace(/```json/g, '').replace(/```/g, '').trim()`. -/
def cleanModelText (text : String) : String :=
  jsTrim (jsReplaceAll (jsReplaceAll text "```json" "") "```" "")

/-- `parseJSON` from `geminiService.ts`.  The external `JSON.parse` is
modelled by an abstract total function `parse` whose `error` result
stands for the exception `JSON.parse` throws on invalid input; the
`catch` block returns `{}`. -/
def parseJSON (parse : String → Except String Json) (text : String) : Json :=
  match parse (cleanModelText text) with
  | .ok v => v
  | .error _ => Json.obj []

/-- Centroid of the normalized node positions (the quantity the spec's
"centroid at origin" property speaks about), computed like `centroid`. -/
noncomputable def nodesCentroid (nodes : List Node3D) : Vector3 :=
  let s := nodes.foldl (fun acc n => acc.add n.pos) (⟨0, 0, 0⟩ : Vector3)
  ⟨s.x / nodes.length, s.y / nodes.length, s.z / nodes.length⟩

/-- Maximum Euclidean distance of a normalized node from the origin (the
spec's "max distance from origin" quantity), computed like the source's
maximum-distance loop. -/
noncomputable def maxDistFromOrigin (nodes : List Node3D) : ℝ :=
  nodes.foldl (fun m n => max m (Vector3.distanceTo n.pos ⟨0, 0, 0⟩)) 0

/-- Example 2D layout: one carbon atom, as a model-provided `structure2D`. -/
def modelLayout : Structure2D := ⟨[⟨1, "C", 0, 0⟩], []⟩

/-- Example PubChem layout: one oxygen atom and a self-bond. -/
def pubLayout : Structure2D := ⟨[⟨7, "O", 1, 1⟩], [⟨7, 7, 1⟩]⟩

/-- Example PubChem layout with an empty atom list (the parse loop over
an empty `atoms.aid` array yields exactly this). -/
def emptyLayout : Structure2D := ⟨[], []⟩

/-- Example molecule carrying only a model-provided 2D layout. -/
def modelMol : MoleculeStructure :=
  { smiles := "C", atoms := [], bonds := [], structure2D := some modelLayout }

/-- Example molecule carrying only 3D atoms. -/
def threeDMol : MoleculeStructure :=
  { smiles := "C", atoms := [⟨"C", 1, 0, 0, none⟩], bonds := [] }

/-- Example molecule whose only bond references atom index 5, absent
from its single-atom list. -/
def danglingMolecule : MoleculeStructure :=
  { smiles := "C", atoms := [⟨"C", 0, 0, 0, none⟩], bonds := [⟨5, 0, 1⟩] }

/-- Example 2D node list with ids 1 and 2. -/
def nodesW : List Atom2D := [⟨1, "C", 0, 0⟩, ⟨2, "O", 1, 0⟩]


/-! ## Theorems -/

theorem applyZoomOp_k_bounds (t : Transform) (op : ZoomOp)
    (h1 : 0.5 ≤ t.k) (h2 : t.k ≤ 5) :
    0.5 ≤ (applyZoomOp t op).k ∧ (applyZoomOp t op).k ≤ 5 := by
  cases op with
  | zoomIn =>
    refine ⟨le_min (by linarith) (by norm_num), min_le_right _ _⟩
  | zoomOut =>
    refine ⟨le_max_right _ _, max_le ?_ (by norm_num)⟩
    rw [div_le_iff₀ (by norm_num : (0 : ℚ) < 1.2)]
    linarith
  | wheel d =>
    exact ⟨le_min (le_max_left _ _) (by norm_num), min_le_right _ _⟩
  | reset =>
    exact ⟨by norm_num [applyZoomOp, handleReset], by norm_num [applyZoomOp, handleReset]⟩

/-- C3: starting from the identity transform, after any sequence of
zoom-in, zoom-out, wheel and reset operations the committed viewport
scale `k` lies in `[0.5, 5]` (and hence does after every prefix of the
sequence, i.e. after every single operation). -/
theorem viewport_scale_clamped (ops : List ZoomOp) :
    0.5 ≤ (applyZoomOps initialTransform ops).k ∧
      (applyZoomOps initialTransform ops).k ≤ 5 := by
  suffices h : ∀ t : Transform, 0.5 ≤ t.k → t.k ≤ 5 →
      0.5 ≤ (applyZoomOps t ops).k ∧ (applyZoomOps t ops).k ≤ 5 by
    exact h initialTransform (by norm_num [initialTransform]) (by norm_num [initialTransform])
  induction ops with
  | nil => intro t h1 h2; exact ⟨h1, h2⟩
  | cons op rest ih =>
    intro t h1 h2
    have hstep := applyZoomOp_k_bounds t op h1 h2
    simpa [applyZoomOps] using ih (applyZoomOp t op) hstep.1 hstep.2

/-- C10: when either comparison input trims to the empty string,
`handleCompare` is a no-op: the state slices are returned unchanged and
no validation or comparison call is issued. -/
theorem handleCompare_blank_noop (mol1 mol2 : String) (st : CompareState)
    (validation : Except String ValidationResult)
    (comparison : Except String ComparisonData)
    (h : jsTrim mol1 = "" ∨ jsTrim mol2 = "") :
    handleCompare mol1 mol2 st validation comparison = (st, []) := by
  unfold handleCompare
  rw [if_pos h]

/-- Witness for C10 at a whitespace-only first input. -/
theorem handleCompare_blank_noop_witness :
    handleCompare "   " "water" ⟨false, none, none⟩
        (Except.ok ⟨true, true⟩) (Except.error "")
      = (⟨false, none, none⟩, []) :=
  handleCompare_blank_noop _ _ _ _ _ (Or.inl (by decide))

/-- C8: the model-response parser is total; it parses the fence-stripped
text, returns the parsed value when that parse succeeds, and returns the
empty object `{}` instead of propagating the parse failure. -/
theorem parseJSON_tolerant (parse : String → Except String Json) (text : String) :
    (∀ v, parse (cleanModelText text) = Except.ok v → parseJSON parse text = v) ∧
    (∀ e, parse (cleanModelText text) = Except.error e →
        parseJSON parse text = Json.obj []) := by
  constructor
  · intro v h
    simp [parseJSON, h]
  · intro e h
    simp [parseJSON, h]

/-- Witness for C8: a fenced object parses to its value, garbage text
degrades to the empty object. -/
theorem parseJSON_tolerant_witness :
    parseJSON (fun s => if s = "{}" then Except.ok Json.null
        else Except.error "SyntaxError") "```json{}```" = Json.null ∧
    parseJSON (fun s => if s = "{}" then Except.ok Json.null
        else Except.error "SyntaxError") "not json" = Json.obj [] := by
  constructor
  · exact (parseJSON_tolerant _ _).1 Json.null (by rfl)
  · exact (parseJSON_tolerant _ _).2 "SyntaxError" (by rfl)

/-- C4 (code bug): the fetch-resolution handler stores its parsed result
without comparing against the current molecule name.  After switching
from "A" to "B" while A's fetch is in flight, A's late result is applied
to the now-B display. -/
theorem stale_fetch_result_applied :
    (fetchRun (initViewer "A")
        [FetchEvent.select "B", FetchEvent.resolve "A" modelLayout]).moleculeName = "B" ∧
    (fetchRun (initViewer "A")
        [FetchEvent.select "B", FetchEvent.resolve "A" modelLayout]).pubChemData
      = some modelLayout := by
  constructor <;> rfl

/-- C5 (code bug): on a bond whose endpoint reference is not in the atom
list, the 2D renderer emits zero primitives, but the 3D scene builder
dereferences the missing array element (`nodes[conn[0]].pos` on
`undefined`) and throws, modelled by the `none` result. -/
theorem dangling_bond_crashes_3d :
    render3DBonds (buildScene (some danglingMolecule)).1
        (buildScene (some danglingMolecule)).2 = none ∧
    renderBond2D [⟨1, "C", 0, 0⟩] 1 ⟨5, 1, 1⟩ = [] := by
  constructor
  · rfl
  · rfl


/-- C7 counterexample: on ("aspirin", "xyz123notamolecule") with the
first input valid and the second invalid, the displayed inline error is
prefixed with "Invalid Input: ", so it is not the exact message the
claim quotes. -/
theorem handleCompare_message_counterexample :
    (handleCompare "aspirin" "xyz123notamolecule" ⟨false, none, none⟩
        (Except.ok ⟨true, false⟩) (Except.error "")).1.error
      = some "Invalid Input: \"xyz123notamolecule\" is not a recognized molecule or valid structure format." ∧
    (handleCompare "aspirin" "xyz123notamolecule" ⟨false, none, none⟩
        (Except.ok ⟨true, false⟩) (Except.error "")).1.error
      ≠ some "\"xyz123notamolecule\" is not a recognized molecule or valid structure format." := by
  constructor
  · decide
  · decide

/-- C7 (amended): when validation marks the first input valid and the
second invalid, `handleCompare` sets the inline error to
`Invalid Input: "<second input>" is not a recognized molecule or valid
structure format.` — the claimed message with an "Invalid Input: "
prefix — naming the failed input, and issues no comparison call; in
general the comparison call is issued only when validation returned both
inputs valid. -/
theorem handleCompare_invalid_second_input (mol1 mol2 : String)
    (st : CompareState) (comparison : Except String ComparisonData)
    (h1 : ¬ jsTrim mol1 = "") (h2 : ¬ jsTrim mol2 = "") :
    (handleCompare mol1 mol2 st (Except.ok ⟨true, false⟩) comparison).1.error
      = some ("Invalid Input: " ++
          ("\"" ++ mol2 ++ "\" is not a recognized molecule or valid structure format.")) ∧
    CompareCall.compare mol1 mol2
      ∉ (handleCompare mol1 mol2 st (Except.ok ⟨true, false⟩) comparison).2 ∧
    ∀ (v : Except String ValidationResult) (c : Except String ComparisonData),
      CompareCall.compare mol1 mol2 ∈ (handleCompare mol1 mol2 st v c).2 →
      v = Except.ok ⟨true, true⟩ := by
  refine ⟨?_, ?_, ?_⟩
  · simp [handleCompare, h1, h2]
  · simp [handleCompare, h1, h2]
  · intro v c hmem
    rcases v with e | ⟨b1, b2⟩
    · simp [handleCompare, h1, h2] at hmem
    · cases b1 <;> cases b2 <;> simp [handleCompare, h1, h2] at hmem ⊢

/-- Witness for C7 at ("aspirin", "xyz123notamolecule"). -/
theorem handleCompare_invalid_second_input_witness :
    (handleCompare "aspirin" "xyz123notamolecule" ⟨false, none, none⟩
        (Except.ok ⟨true, false⟩) (Except.error "")).1.error
      = some ("Invalid Input: " ++
          ("\"" ++ "xyz123notamolecule" ++ "\" is not a recognized molecule or valid structure format.")) ∧
    CompareCall.compare "aspirin" "xyz123notamolecule"
      ∉ (handleCompare "aspirin" "xyz123notamolecule" ⟨false, none, none⟩
          (Except.ok ⟨true, false⟩) (Except.error "")).2 := by
  have h := handleCompare_invalid_second_input "aspirin" "xyz123notamolecule"
    ⟨false, none, none⟩ (Except.error "") (by decide) (by decide)
  exact ⟨h.1, h.2.1⟩

/-- C6: for a bond whose two endpoint ids both resolve, order 2 yields
exactly two strokes of which exactly one is the background-coloured gap
stroke; order 3 yields exactly three strokes with one gap stroke; order
4 yields exactly two strokes, exactly one dashed plus one solid one at
opacity 0.5; every other order yields exactly one plain stroke. -/
theorem bond_order_primitives (nodes : List Atom2D) (bw : ℚ) (conn : Bond)
    (f t : Atom2D)
    (hf : nodes.find? (fun n => n.id == conn.from') = some f)
    (ht : nodes.find? (fun n => n.id == conn.to') = some t) :
    (conn.order = 2 → (renderBond2D nodes bw conn).length = 2 ∧
        (renderBond2D nodes bw conn).countP isGapStroke = 1 ∧
        (renderBond2D nodes bw conn).countP isDashedStroke = 0) ∧
    (conn.order = 3 → (renderBond2D nodes bw conn).length = 3 ∧
        (renderBond2D nodes bw conn).countP isGapStroke = 1 ∧
        (renderBond2D nodes bw conn).countP isDashedStroke = 0) ∧
    (conn.order = 4 → (renderBond2D nodes bw conn).length = 2 ∧
        (renderBond2D nodes bw conn).countP isDashedStroke = 1 ∧
        (renderBond2D nodes bw conn).countP isGapStroke = 0 ∧
        ∃ l ∈ renderBond2D nodes bw conn,
          l.strokeDash = none ∧ l.opacity = 0.5) ∧
    (conn.order ≠ 2 → conn.order ≠ 3 → conn.order ≠ 4 →
        (renderBond2D nodes bw conn).length = 1 ∧
        (renderBond2D nodes bw conn).countP isGapStroke = 0 ∧
        (renderBond2D nodes bw conn).countP isDashedStroke = 0) := by
  unfold renderBond2D
  rw [hf, ht]
  refine ⟨?_, ?_, ?_, ?_⟩
  · intro h
    simp [h, isGapStroke, isDashedStroke, List.countP_cons]
  · intro h
    simp [h, isGapStroke, isDashedStroke, List.countP_cons]
  · intro h
    refine ⟨?_, ?_, ?_, ?_⟩ <;>
      simp [h, isGapStroke, isDashedStroke, List.countP_cons]
  · intro h2 h3 h4
    simp [h2, h3, h4, isGapStroke, isDashedStroke, List.countP_cons]

/-- Witness for C6 on a two-atom node list with a bond of each order. -/
theorem bond_order_primitives_witness :
    ((renderBond2D nodesW 1 ⟨1, 2, 2⟩).length = 2 ∧
      (renderBond2D nodesW 1 ⟨1, 2, 2⟩).countP isGapStroke = 1) ∧
    (renderBond2D nodesW 1 ⟨1, 2, 3⟩).length = 3 ∧
    ((renderBond2D nodesW 1 ⟨1, 2, 4⟩).length = 2 ∧
      (renderBond2D nodesW 1 ⟨1, 2, 4⟩).countP isDashedStroke = 1) ∧
    (renderBond2D nodesW 1 ⟨1, 2, 1⟩).length = 1 := by
  have h2 := bond_order_primitives nodesW 1 ⟨1, 2, 2⟩ ⟨1, "C", 0, 0⟩ ⟨2, "O", 1, 0⟩ rfl rfl
  have h3 := bond_order_primitives nodesW 1 ⟨1, 2, 3⟩ ⟨1, "C", 0, 0⟩ ⟨2, "O", 1, 0⟩ rfl rfl
  have h4 := bond_order_primitives nodesW 1 ⟨1, 2, 4⟩ ⟨1, "C", 0, 0⟩ ⟨2, "O", 1, 0⟩ rfl rfl
  have h1 := bond_order_primitives nodesW 1 ⟨1, 2, 1⟩ ⟨1, "C", 0, 0⟩ ⟨2, "O", 1, 0⟩ rfl rfl
  refine ⟨⟨(h2.1 rfl).1, (h2.1 rfl).2.1⟩, (h3.2.1 rfl).1,
    ⟨(h4.2.2.1 rfl).1, (h4.2.2.1 rfl).2.1⟩, (h1.2.2.2 (by decide) (by decide) (by decide)).1⟩

/-- C9 counterexample: colour matching is not case-insensitive — the
symbol "CL" (upper-case L) falls through to the default colour although
"Cl" is in the table, while "cl" does match. -/
theorem atom_color_case_counterexample :
    getAtomColor "CL" = "#DA70D6" ∧ getAtomColor "Cl" = "#1FF01F" ∧
    getAtomColor "cl" = "#1FF01F" ∧ ("#DA70D6" : String) ≠ "#1FF01F" := by
  refine ⟨by decide, by decide, by decide, by decide⟩

/-- C9 (amended): hydrogen spheres (symbol exactly "H") are strictly
smaller than those of every other element symbol; sphere colour comes
from the fixed table, looked up by the exact symbol first and then by
the symbol with only its first letter uppercased, defaulting to the
neutral colour when neither key is present; every node the scene builder
emits is coloured that way. -/
theorem sphere_color_radius :
    (∀ el : String, el ≠ "H" → sphereRadiusFor "H" < sphereRadiusFor el) ∧
    (∀ el c, colorLookup el = some c → getAtomColor el = c) ∧
    (∀ el c, colorLookup el = none →
        colorLookup (capitalizeFirst el) = some c → getAtomColor el = c) ∧
    (∀ el, colorLookup el = none → colorLookup (capitalizeFirst el) = none →
        getAtomColor el = "#DA70D6") ∧
    (∀ (sd : Option MoleculeStructure) (nd : Node3D),
        nd ∈ (buildScene sd).1 → nd.color = getAtomColor nd.element) := by
  refine ⟨?_, ?_, ?_, ?_, ?_⟩
  · intro el hel
    simp only [sphereRadiusFor, if_pos rfl, if_neg hel]
    norm_num
  · intro el c h
    simp [getAtomColor, h]
  · intro el c h h2
    simp [getAtomColor, h, h2]
  · intro el h h2
    simp [getAtomColor, h, h2]
  · intro sd nd hmem
    rcases sd with _ | sd
    · simp [buildScene] at hmem
    · simp only [buildScene] at hmem
      split at hmem
      · simp only [buildNodes, List.mem_map] at hmem
        obtain ⟨a, _, rfl⟩ := hmem
        rfl
      · simp at hmem

/-- Witness for C9: the radius comparison at "O", a direct table hit, a
first-letter-capitalization hit, a default fallthrough, and the colour
of every node built for a concrete molecule. -/
theorem sphere_color_radius_witness :
    sphereRadiusFor "H" < sphereRadiusFor "O" ∧
    getAtomColor "N" = "#3050F8" ∧
    getAtomColor "br" = "#A62929" ∧
    getAtomColor "Zz" = "#DA70D6" ∧
    ((buildScene (some threeDMol)).1.map Node3D.color)
      = ((buildScene (some threeDMol)).1.map (fun nd => getAtomColor nd.element)) := by
  refine ⟨sphere_color_radius.1 "O" (by decide),
    sphere_color_radius.2.1 "N" _ (by decide),
    sphere_color_radius.2.2.1 "br" _ (by decide) (by decide),
    sphere_color_radius.2.2.2.1 "Zz" (by decide) (by decide),
    List.map_congr_left (fun nd h => sphere_color_radius.2.2.2.2 (some threeDMol) nd h)⟩


theorem project3D_length (atoms : List Atom3D) :
    (project3D atoms).length = atoms.length := by
  simp [project3D]

/-- C1 counterexample: with a present-but-empty PubChem layout and a
non-empty model-provided 2D layout, the resolver output is the empty
placeholder — the model layout the claim's "otherwise" demands is not
consulted. -/
theorem resolver_priority_counterexample :
    (resolve2D (some emptyLayout) (some modelMol)).nodes = [] ∧
    modelMol.structure2D = some modelLayout ∧ modelLayout.atoms ≠ [] := by
  refine ⟨rfl, rfl, by decide⟩

/-- C1 (amended): exactly one source is selected per render, in strict
priority; a present PubChem layout always wins — when non-empty it is
used verbatim (flagged official), and when present but empty the output
is the empty placeholder even if lower-priority sources are non-empty;
with no PubChem layout, a non-empty model 2D layout is used; otherwise
non-empty 3D atoms are projected and flagged as fallback; otherwise the
output is the empty placeholder. -/
theorem resolver_source_priority (pc : Option Structure2D)
    (sd : Option MoleculeStructure) :
    (∀ p, pc = some p → p.atoms ≠ [] →
        (resolve2D pc sd).nodes = p.atoms ∧
        (resolve2D pc sd).connections = p.bonds ∧
        (resolve2D pc sd).isOfficial = true ∧
        (resolve2D pc sd).isFallback = false) ∧
    (∀ p, pc = some p → p.atoms = [] → resolve2D pc sd = emptyResolved2D) ∧
    (∀ s s2, pc = none → sd = some s → s.structure2D = some s2 →
        s2.atoms ≠ [] →
        (resolve2D pc sd).nodes = s2.atoms ∧
        (resolve2D pc sd).connections = s2.bonds ∧
        (resolve2D pc sd).isFallback = false ∧
        (resolve2D pc sd).isOfficial = false) ∧
    (∀ s, pc = none → sd = some s →
        (∀ s2, s.structure2D = some s2 → s2.atoms = []) → s.atoms ≠ [] →
        (resolve2D pc sd).nodes = project3D s.atoms ∧
        (resolve2D pc sd).connections = s.bonds ∧
        (resolve2D pc sd).isFallback = true) ∧
    (∀ s, pc = none → sd = some s →
        (∀ s2, s.structure2D = some s2 → s2.atoms = []) → s.atoms = [] →
        resolve2D pc sd = emptyResolved2D) ∧
    (pc = none → sd = none → resolve2D pc sd = emptyResolved2D) := by
  refine ⟨?_, ?_, ?_, ?_, ?_, ?_⟩
  · intro p hpc hne
    subst hpc
    simp [resolve2D, select2DSource, List.length_eq_zero, hne]
  · intro p hpc hp
    subst hpc
    simp [resolve2D, select2DSource, hp, emptyResolved2D]
  · intro s s2 hpc hsd h2 hne
    subst hpc; subst hsd
    simp [resolve2D, select2DSource, h2, List.length_pos.mpr hne,
      List.length_eq_zero, hne]
  · intro s hpc hsd h2d hne
    subst hpc; subst hsd
    have hlp : (project3D s.atoms).length ≠ 0 := by
      rw [project3D_length]
      simpa [List.length_eq_zero] using hne
    rcases hs2 : s.structure2D with _ | s2
    · simp [resolve2D, select2DSource, hs2, fallbackFrom3D,
        List.length_pos.mpr hne, hlp]
    · have := h2d s2 hs2
      simp [resolve2D, select2DSource, hs2, this, fallbackFrom3D,
        List.length_pos.mpr hne, hlp]
  · intro s hpc hsd h2d hempty
    subst hpc; subst hsd
    rcases hs2 : s.structure2D with _ | s2
    · simp [resolve2D, select2DSource, hs2, fallbackFrom3D, hempty,
        emptyResolved2D]
    · have := h2d s2 hs2
      simp [resolve2D, select2DSource, hs2, this, fallbackFrom3D, hempty,
        emptyResolved2D]
  · intro hpc hsd
    subst hpc; subst hsd
    rfl

/-- Witness for C1: one concrete input per priority case. -/
theorem resolver_source_priority_witness :
    (resolve2D (some pubLayout) (some modelMol)).nodes = pubLayout.atoms ∧
    resolve2D (some emptyLayout) (some modelMol) = emptyResolved2D ∧
    (resolve2D none (some modelMol)).nodes = modelLayout.atoms ∧
    (resolve2D none (some threeDMol)).isFallback = true ∧
    resolve2D none none = emptyResolved2D := by
  refine ⟨((resolver_source_priority (some pubLayout) (some modelMol)).1
      pubLayout rfl (by decide)).1,
    (resolver_source_priority (some emptyLayout) (some modelMol)).2.1
      emptyLayout rfl rfl,
    ((resolver_source_priority none (some modelMol)).2.2.1
      modelMol modelLayout rfl rfl rfl (by decide)).1,
    ((resolver_source_priority none (some threeDMol)).2.2.2.1
      threeDMol rfl rfl ?_ (by decide)).2.2,
    (resolver_source_priority none none).2.2.2.2.2 rfl rfl⟩
  intro s2 hs2
  simp [threeDMol] at hs2

theorem foldl_add_pos_x {A : Type} (g : A → Vector3) (l : List A) (acc : Vector3) :
    (l.foldl (fun m v => m.add (g v)) acc).x = acc.x + (l.map (fun v => (g v).x)).sum := by
  induction l generalizing acc with
  | nil => simp
  | cons v t ih =>
    simp only [List.foldl_cons, List.map_cons, List.sum_cons, ih]
    simp only [Vector3.add]
    ring

theorem foldl_add_pos_y {A : Type} (g : A → Vector3) (l : List A) (acc : Vector3) :
    (l.foldl (fun m v => m.add (g v)) acc).y = acc.y + (l.map (fun v => (g v).y)).sum := by
  induction l generalizing acc with
  | nil => simp
  | cons v t ih =>
    simp only [List.foldl_cons, List.map_cons, List.sum_cons, ih]
    simp only [Vector3.add]
    ring

theorem foldl_add_pos_z {A : Type} (g : A → Vector3) (l : List A) (acc : Vector3) :
    (l.foldl (fun m v => m.add (g v)) acc).z = acc.z + (l.map (fun v => (g v).z)).sum := by
  induction l generalizing acc with
  | nil => simp
  | cons v t ih =>
    simp only [List.foldl_cons, List.map_cons, List.sum_cons, ih]
    simp only [Vector3.add]
    ring

theorem centroid_x (atoms : List Atom3D) :
    (centroid atoms).x = (atoms.map fun a => ((a.x : ℚ) : ℝ)).sum / atoms.length := by
  have hx := foldl_add_pos_x Atom3D.vec atoms ⟨0, 0, 0⟩
  simp only [centroid, hx]
  simp [Atom3D.vec]

theorem centroid_y (atoms : List Atom3D) :
    (centroid atoms).y = (atoms.map fun a => ((a.y : ℚ) : ℝ)).sum / atoms.length := by
  have hy := foldl_add_pos_y Atom3D.vec atoms ⟨0, 0, 0⟩
  simp only [centroid, hy]
  simp [Atom3D.vec]

theorem centroid_z (atoms : List Atom3D) :
    (centroid atoms).z = (atoms.map fun a => ((a.z : ℚ) : ℝ)).sum / atoms.length := by
  have hz := foldl_add_pos_z Atom3D.vec atoms ⟨0, 0, 0⟩
  simp only [centroid, hz]
  simp [Atom3D.vec]

theorem sum_map_sub_mul {A : Type} (f : A → ℝ) (c q : ℝ) (l : List A) :
    (l.map fun a => (f a - c) * q).sum = ((l.map f).sum - l.length * c) * q := by
  induction l with
  | nil => simp
  | cons a t ih =>
    simp only [List.map_cons, List.sum_cons, ih, List.length_cons]
    push_cast
    ring

theorem nodesCentroid_buildNodes (atoms : List Atom3D) (h : atoms ≠ []) :
    nodesCentroid (buildNodes atoms) = ⟨0, 0, 0⟩ := by
  have hl0 : atoms.length ≠ 0 := fun hh => h (List.length_eq_zero.mp hh)
  have hlen : ((atoms.length : ℕ) : ℝ) ≠ 0 := Nat.cast_ne_zero.mpr hl0
  have hfx := foldl_add_pos_x Node3D.pos (buildNodes atoms) ⟨0, 0, 0⟩
  have hfy := foldl_add_pos_y Node3D.pos (buildNodes atoms) ⟨0, 0, 0⟩
  have hfz := foldl_add_pos_z Node3D.pos (buildNodes atoms) ⟨0, 0, 0⟩
  have hmx : (buildNodes atoms).map (fun v => (Node3D.pos v).x)
      = atoms.map (fun a =>
          (((a.x : ℚ) : ℝ) - (centroid atoms).x) * normalizeScale atoms) := by
    simp [buildNodes, List.map_map, Function.comp, Vector3.sub,
      Vector3.multiplyScalar, Atom3D.vec]
  have hmy : (buildNodes atoms).map (fun v => (Node3D.pos v).y)
      = atoms.map (fun a =>
          (((a.y : ℚ) : ℝ) - (centroid atoms).y) * normalizeScale atoms) := by
    simp [buildNodes, List.map_map, Function.comp, Vector3.sub,
      Vector3.multiplyScalar, Atom3D.vec]
  have hmz : (buildNodes atoms).map (fun v => (Node3D.pos v).z)
      = atoms.map (fun a =>
          (((a.z : ℚ) : ℝ) - (centroid atoms).z) * normalizeScale atoms) := by
    simp [buildNodes, List.map_map, Function.comp, Vector3.sub,
      Vector3.multiplyScalar, Atom3D.vec]
  have hsx : (atoms.map (fun a =>
      (((a.x : ℚ) : ℝ) - (centroid atoms).x) * normalizeScale atoms)).sum = 0 := by
    rw [sum_map_sub_mul (fun a => ((a.x : ℚ) : ℝ)) ((centroid atoms).x)
      (normalizeScale atoms) atoms, centroid_x]
    field_simp
  have hsy : (atoms.map (fun a =>
      (((a.y : ℚ) : ℝ) - (centroid atoms).y) * normalizeScale atoms)).sum = 0 := by
    rw [sum_map_sub_mul (fun a => ((a.y : ℚ) : ℝ)) ((centroid atoms).y)
      (normalizeScale atoms) atoms, centroid_y]
    field_simp
  have hsz : (atoms.map (fun a =>
      (((a.z : ℚ) : ℝ) - (centroid atoms).z) * normalizeScale atoms)).sum = 0 := by
    rw [sum_map_sub_mul (fun a => ((a.z : ℚ) : ℝ)) ((centroid atoms).z)
      (normalizeScale atoms) atoms, centroid_z]
    field_simp
  simp only [nodesCentroid, Vector3.mk.injEq]
  refine ⟨?_, ?_, ?_⟩
  · rw [hfx, hmx, hsx]
    simp
  · rw [hfy, hmy, hsy]
    simp
  · rw [hfz, hmz, hsz]
    simp

theorem dist_scaled (v c : Vector3) (q : ℝ) (hq : 0 ≤ q) :
    Vector3.distanceTo ((v.sub c).multiplyScalar q) ⟨0, 0, 0⟩
      = q * Vector3.distanceTo v c := by
  simp only [Vector3.distanceTo, Vector3.sub, Vector3.multiplyScalar]
  rw [show ((v.x - c.x) * q - 0) ^ 2 + ((v.y - c.y) * q - 0) ^ 2
        + ((v.z - c.z) * q - 0) ^ 2
      = q ^ 2 * ((v.x - c.x) ^ 2 + (v.y - c.y) ^ 2 + (v.z - c.z) ^ 2) by ring]
  rw [Real.sqrt_mul (sq_nonneg q), Real.sqrt_sq hq]

theorem foldl_max_mul {A : Type} (g : A → ℝ) (q : ℝ) (hq : 0 ≤ q) (l : List A) :
    ∀ b, l.foldl (fun m a => max m (q * g a)) (q * b)
      = q * l.foldl (fun m a => max m (g a)) b := by
  induction l with
  | nil => intro b; simp
  | cons a t ih =>
    intro b
    simp only [List.foldl_cons]
    rw [← mul_max_of_nonneg _ _ hq, ih]

theorem normalizeScale_nonneg (atoms : List Atom3D) :
    0 ≤ normalizeScale atoms := by
  by_cases hmd : maxDistToCentroid atoms (centroid atoms) > 0
  · rw [show normalizeScale atoms
        = 5.5 / maxDistToCentroid atoms (centroid atoms) from by
      simp [normalizeScale, hmd]]
    positivity
  · rw [show normalizeScale atoms = 1 from by simp [normalizeScale, hmd]]
    norm_num

theorem maxDistFromOrigin_buildNodes (atoms : List Atom3D) :
    maxDistFromOrigin (buildNodes atoms)
      = normalizeScale atoms * maxDistToCentroid atoms (centroid atoms) := by
  have hq := normalizeScale_nonneg atoms
  simp only [maxDistFromOrigin, buildNodes]
  rw [List.foldl_map]
  have hrw : (fun (m : ℝ) (a : Atom3D) => max m (Vector3.distanceTo
        (((⟨(a.vec.sub (centroid atoms)).multiplyScalar (normalizeScale atoms),
            a.element, getAtomColor a.element⟩ : Node3D)).pos) ⟨0, 0, 0⟩))
      = fun m a => max m (normalizeScale atoms * Vector3.distanceTo a.vec (centroid atoms)) := by
    funext m a
    rw [show ((⟨(a.vec.sub (centroid atoms)).multiplyScalar (normalizeScale atoms),
        a.element, getAtomColor a.element⟩ : Node3D)).pos
      = (a.vec.sub (centroid atoms)).multiplyScalar (normalizeScale atoms) from rfl]
    rw [dist_scaled _ _ _ hq]
  rw [hrw]
  rw [show (0 : ℝ) = normalizeScale atoms * 0 by ring]
  rw [foldl_max_mul _ _ hq]
  rfl

theorem centroid_single (a : Atom3D) : centroid [a] = a.vec := by
  simp [centroid, Vector3.add, Atom3D.vec]

theorem distanceTo_self (v : Vector3) : Vector3.distanceTo v v = 0 := by
  simp only [Vector3.distanceTo, sub_self]
  rw [show (0 : ℝ) ^ 2 + 0 ^ 2 + 0 ^ 2 = 0 by norm_num, Real.sqrt_zero]

theorem maxDist_single (a : Atom3D) :
    maxDistToCentroid [a] (centroid [a]) = 0 := by
  simp [maxDistToCentroid, centroid_single, distanceTo_self]

theorem normalizeScale_single (a : Atom3D) : normalizeScale [a] = 1 := by
  simp [normalizeScale, maxDist_single]

/-- C2 counterexample: for the non-empty single-atom input C(1,2,3) the
normalized maximum distance from the origin is 0, not the target radius
5.5 claimed for every non-empty input. -/
theorem geometry_normalizer_counterexample :
    maxDistFromOrigin (buildNodes [⟨"C", 1, 2, 3, none⟩]) = 0 ∧
    (0 : ℝ) ≠ 5.5 := by
  constructor
  · rw [maxDistFromOrigin_buildNodes, maxDist_single, mul_zero]
  · norm_num

/-- C2 (amended): each atom is repositioned to
(original − centroid) · scale with scale = 5.5 / maxDist, or 1 when
maxDist = 0 (in particular for a single atom, with no division); the
normalized set has centroid at the origin; and whenever the maximum
distance to the centroid is positive, the normalized maximum distance
from the origin equals the target radius 5.5. -/
theorem geometry_normalizer (atoms : List Atom3D) (h : atoms ≠ []) :
    (∀ i (hi : i < (buildNodes atoms).length) (ha : i < atoms.length),
        ((buildNodes atoms).get ⟨i, hi⟩).pos
          = ((atoms.get ⟨i, ha⟩).vec.sub (centroid atoms)).multiplyScalar
              (normalizeScale atoms)) ∧
    nodesCentroid (buildNodes atoms) = ⟨0, 0, 0⟩ ∧
    (0 < maxDistToCentroid atoms (centroid atoms) →
        maxDistFromOrigin (buildNodes atoms) = 5.5) ∧
    (maxDistToCentroid atoms (centroid atoms) = 0 → normalizeScale atoms = 1) ∧
    (∀ a, atoms = [a] → normalizeScale atoms = 1) := by
  refine ⟨?_, nodesCentroid_buildNodes atoms h, ?_, ?_, ?_⟩
  · intro i hi ha
    simp [buildNodes]
  · intro hpos
    have hsc : normalizeScale atoms
        = 5.5 / maxDistToCentroid atoms (centroid atoms) := by
      simp [normalizeScale, hpos]
    rw [maxDistFromOrigin_buildNodes, hsc]
    exact div_mul_cancel₀ _ (ne_of_gt hpos)
  · intro h0
    simp [normalizeScale, h0]
  · intro a ha
    subst ha
    exact normalizeScale_single a

/-- Witness for C2: the single-atom scale factor, and the target radius
reached on a concrete two-atom input. -/
theorem geometry_normalizer_witness :
    normalizeScale [⟨"H", 1, 2, 3, none⟩] = 1 ∧
    maxDistFromOrigin (buildNodes
      [⟨"H", 0, 0, 0, none⟩, ⟨"H", 2, 0, 0, none⟩]) = 5.5 := by
  constructor
  · exact (geometry_normalizer [⟨"H", 1, 2, 3, none⟩] (by simp)).2.2.2.2 _ rfl
  · apply (geometry_normalizer _ (by simp)).2.2.1
    have hc : centroid [⟨"H", 0, 0, 0, none⟩, ⟨"H", 2, 0, 0, none⟩]
        = ⟨1, 0, 0⟩ := by
      norm_num [centroid, Vector3.add, Atom3D.vec, Vector3.mk.injEq]
    rw [hc]
    have h1 : Vector3.distanceTo (Atom3D.vec ⟨"H", 0, 0, 0, none⟩) ⟨1, 0, 0⟩ = 1 := by
      simp only [Vector3.distanceTo, Atom3D.vec]
      rw [show ((((0 : ℚ) : ℝ)) - 1) ^ 2 + ((((0 : ℚ) : ℝ)) - 0) ^ 2
          + ((((0 : ℚ) : ℝ)) - 0) ^ 2 = 1 by push_cast; ring]
      exact Real.sqrt_one
    have h2 : Vector3.distanceTo (Atom3D.vec ⟨"H", 2, 0, 0, none⟩) ⟨1, 0, 0⟩ = 1 := by
      simp only [Vector3.distanceTo, Atom3D.vec]
      rw [show ((((2 : ℚ) : ℝ)) - 1) ^ 2 + ((((0 : ℚ) : ℝ)) - 0) ^ 2
          + ((((0 : ℚ) : ℝ)) - 0) ^ 2 = 1 by push_cast; ring]
      exact Real.sqrt_one
    simp only [maxDistToCentroid, List.foldl_cons, List.foldl_nil, h1, h2]
    norm_num

end NovaSynth
